import Mathlib

/-!
Shallow embedding of `docs/conf.py`, the Sphinx documentation-builder
configuration of the pgcopydb repository, together with proofs of the
static-data properties stated in the specification.

The configuration module assigns a sequence of module-level variables
(project metadata strings, path lists, the `man_pages` table) and, as its
one side effect on state outside the module, overwrites the class
attribute `PygmentsBridge.latex_formatter` of the imported Sphinx
highlighting bridge with a locally defined `CustomLatexFormatter`
subclass of the pygments `LatexFormatter`.
-/

namespace PgcopydbDocsConf

/-- One entry of the Sphinx `man_pages` table, a tuple
`(source start file, name, description, authors, manual section)`. -/
structure ManPage where
  source : String
  name : String
  description : String
  authors : List String
  sectionNum : Nat
deriving DecidableEq, Repr

/-- `project = 'pgcopydb'` (conf.py). -/
def project : String := "pgcopydb"

/-- `copyright = '2022, Dimitri Fontaine'` (conf.py). -/
def copyright : String := "2022, Dimitri Fontaine"

/-- `author = 'Dimitri Fontaine'` (conf.py). -/
def author : String := "Dimitri Fontaine"

/-- `version = '0.10'` (conf.py). -/
def version : String := "0.10"

/-- `release = '0.10'` (conf.py). -/
def release : String := "0.10"

/-- `master_doc = 'index'` (conf.py). -/
def master_doc : String := "index"

/-- `extensions = []` (conf.py): the list of enabled Sphinx extension
modules. -/
def extensions : List String := []

/-- `templates_path = ['_templates']` (conf.py). -/
def templates_path : List String := ["_templates"]

/-- `exclude_patterns = ['_build', 'Thumbs.db', '.DS_Store']` (conf.py). -/
def exclude_patterns : List String := ["_build", "Thumbs.db", ".DS_Store"]

/-- `html_theme = "sphinx_rtd_theme"` (conf.py). -/
def html_theme : String := "sphinx_rtd_theme"

/-- `html_static_path = ['_static']` (conf.py). -/
def html_static_path : List String := ["_static"]

/-- The `man_pages` table of conf.py, in source order, with `[author]`
substituted by its value exactly as Python evaluates the list literal. -/
def man_pages : List ManPage := [
  ⟨"ref/pgcopydb", "pgcopydb", "pgcopydb", [author], 1⟩,
  ⟨"ref/pgcopydb_config", "pgcopydb", "pgcopydb", [author], 5⟩,
  ⟨"ref/pgcopydb_clone", "pgcopydb clone", "pgcopydb clone", [author], 1⟩,
  ⟨"ref/pgcopydb_clone", "pgcopydb fork", "pgcopydb fork", [author], 1⟩,
  ⟨"ref/pgcopydb_follow", "pgcopydb follow", "pgcopydb follow", [author], 1⟩,
  ⟨"ref/pgcopydb_snapshot", "pgcopydb snapshot", "pgcopydb snapshot", [author], 1⟩,
  ⟨"ref/pgcopydb_copy", "pgcopydb copy", "pgcopydb copy", [author], 1⟩,
  ⟨"ref/pgcopydb_dump", "pgcopydb dump", "pgcopydb dump", [author], 1⟩,
  ⟨"ref/pgcopydb_restore", "pgcopydb restore", "pgcopydb restore", [author], 1⟩,
  ⟨"ref/pgcopydb_list", "pgcopydb list", "pgcopydb list", [author], 1⟩,
  ⟨"ref/pgcopydb_stream", "pgcopydb stream", "pgcopydb stream", [author], 1⟩
]

end PgcopydbDocsConf

namespace PgcopydbDocsConf

/-- The formatter classes relevant to the state mutated by conf.py:
the pygments defaults and the `CustomLatexFormatter` class that conf.py
defines and installs. -/
inductive FormatterClass where
  | latexFormatterCls
  | htmlFormatterCls
  | customLatexFormatterCls
deriving DecidableEq, Repr

/-- State living outside the configuration module: the class attributes
of the imported Sphinx `PygmentsBridge`.  `latex_formatter` is the
attribute conf.py assigns; `html_formatter` stands for the rest of the
bridge's attributes, which conf.py never touches. -/
structure ExternalState where
  latex_formatter : FormatterClass
  html_formatter : FormatterClass
deriving DecidableEq, Repr

/-- The configuration variables the module defines, bundled as produced
by one load of conf.py. -/
structure Config where
  project : String
  copyright : String
  author : String
  version : String
  release : String
  master_doc : String
  extensions : List String
  templates_path : List String
  exclude_patterns : List String
  html_theme : String
  html_static_path : List String
  man_pages : List ManPage
deriving DecidableEq, Repr

/-- The configuration record produced by loading conf.py. -/
def pgcopydbConf : Config :=
  { project := project
    copyright := copyright
    author := author
    version := version
    release := release
    master_doc := master_doc
    extensions := extensions
    templates_path := templates_path
    exclude_patterns := exclude_patterns
    html_theme := html_theme
    html_static_path := html_static_path
    man_pages := man_pages }

/-- Loading conf.py: the module-level assignments build the configuration
record, and the statement `PygmentsBridge.latex_formatter =
CustomLatexFormatter` overwrites that one attribute of the imported
bridge, leaving all other external state as it was. -/
def loadConfModule (s : ExternalState) : Config × ExternalState :=
  (pgcopydbConf, { s with latex_formatter := FormatterClass.customLatexFormatterCls })

/-- The external state as it stands before conf.py is loaded: the Sphinx
bridge holds the pygments defaults. -/
def initialExternalState : ExternalState :=
  { latex_formatter := FormatterClass.latexFormatterCls
    html_formatter := FormatterClass.htmlFormatterCls }

end PgcopydbDocsConf

namespace PgcopydbDocsConf

/-- The keyword options accepted by the pygments `LatexFormatter`
constructor, restricted to the options it stores as instance
attributes.  Defaults follow the pygments documentation. -/
structure LatexOptions where
  docclass : String := "article"
  preamble : String := ""
  linenos : Bool := false
  linenostart : Nat := 1
  linenostep : Nat := 1
  verboptions : String := ""
  texcomments : Bool := false
  mathescape : Bool := false
deriving DecidableEq, Repr

/-- The instance attributes of a constructed pygments LaTeX formatter. -/
structure LatexFormatterObj where
  docclass : String
  preamble : String
  linenos : Bool
  linenostart : Nat
  linenostep : Nat
  verboptions : String
  texcomments : Bool
  mathescape : Bool
deriving DecidableEq, Repr

/-- Modelled from the spec: the constructor of the third-party pygments
`LatexFormatter` (not part of src/), which stores each constructor
option in the instance attribute of the same name; in particular
`verboptions` is taken from the options. -/
def latexFormatterInit (o : LatexOptions) : LatexFormatterObj :=
  { docclass := o.docclass
    preamble := o.preamble
    linenos := o.linenos
    linenostart := o.linenostart
    linenostep := o.linenostep
    verboptions := o.verboptions
    texcomments := o.texcomments
    mathescape := o.mathescape }

/-- The `CustomLatexFormatter.__init__` of conf.py: call the base
`LatexFormatter` constructor on the same options, then set
`self.verboptions = r"formatcom=\scriptsize"`. -/
def customLatexFormatterInit (o : LatexOptions) : LatexFormatterObj :=
  { latexFormatterInit o with verboptions := "formatcom=\\scriptsize" }

end PgcopydbDocsConf

namespace PgcopydbDocsConf

/-- A value of an emitted configuration item: a string, a list of
strings, or a manual-page table. -/
inductive ConfValue where
  | str : String → ConfValue
  | strList : List String → ConfValue
  | pages : List ManPage → ConfValue
deriving DecidableEq, Repr

/-- Modelled from the spec: re-emitting the configuration in the target
documentation tool's native format (not part of src/), as an ordered
list of key/value items. -/
def emitConf (c : Config) : List (String × ConfValue) :=
  [("project", ConfValue.str c.project),
   ("copyright", ConfValue.str c.copyright),
   ("author", ConfValue.str c.author),
   ("version", ConfValue.str c.version),
   ("release", ConfValue.str c.release),
   ("master_doc", ConfValue.str c.master_doc),
   ("extensions", ConfValue.strList c.extensions),
   ("templates_path", ConfValue.strList c.templates_path),
   ("exclude_patterns", ConfValue.strList c.exclude_patterns),
   ("html_theme", ConfValue.str c.html_theme),
   ("html_static_path", ConfValue.strList c.html_static_path),
   ("man_pages", ConfValue.pages c.man_pages)]

/-- Look up a string-valued configuration key in an emitted item list. -/
def lookupStr (items : List (String × ConfValue)) (k : String) : Option String :=
  match items.lookup k with
  | some (ConfValue.str s) => some s
  | _ => none

/-- Look up a string-list-valued configuration key. -/
def lookupStrList (items : List (String × ConfValue)) (k : String) : Option (List String) :=
  match items.lookup k with
  | some (ConfValue.strList l) => some l
  | _ => none

/-- Look up the manual-page table. -/
def lookupPages (items : List (String × ConfValue)) (k : String) : Option (List ManPage) :=
  match items.lookup k with
  | some (ConfValue.pages l) => some l
  | _ => none

/-- Modelled from the spec: reloading an emitted configuration (not part
of src/), recovering each recognized key from the item list. -/
def reloadConf (items : List (String × ConfValue)) : Option Config := do
  let project ← lookupStr items "project"
  let copyright ← lookupStr items "copyright"
  let author ← lookupStr items "author"
  let version ← lookupStr items "version"
  let release ← lookupStr items "release"
  let master_doc ← lookupStr items "master_doc"
  let extensions ← lookupStrList items "extensions"
  let templates_path ← lookupStrList items "templates_path"
  let exclude_patterns ← lookupStrList items "exclude_patterns"
  let html_theme ← lookupStr items "html_theme"
  let html_static_path ← lookupStrList items "html_static_path"
  let man_pages ← lookupPages items "man_pages"
  pure { project := project
         copyright := copyright
         author := author
         version := version
         release := release
         master_doc := master_doc
         extensions := extensions
         templates_path := templates_path
         exclude_patterns := exclude_patterns
         html_theme := html_theme
         html_static_path := html_static_path
         man_pages := man_pages }

/-- Scanner for fnmatch-style glob syntax: every character class opened
by `[` must be closed by `]` before the pattern ends.  The boolean
argument records whether the scan is inside a character class. -/
def globScan : List Char → Bool → Bool
  | [], inClass => !inClass
  | c :: rest, false =>
    if c = '[' then globScan rest true else globScan rest false
  | c :: rest, true =>
    if c = ']' then globScan rest false else globScan rest true

/-- Modelled from the spec: syntactic validity of a glob pattern as used
by the documentation tool's source discovery (fnmatch-style; the only
syntax that can fail to close is a character class). -/
def globSyntaxValid (p : String) : Bool :=
  globScan p.data false

end PgcopydbDocsConf

namespace PgcopydbDocsConf

/-- C1: every entry of the `man_pages` table carries manual section 1 or 5,
and no two distinct entries with the same section number share their
(source document, command name) pair. -/
theorem man_pages_sections_valid_and_keys_unique :
    man_pages.Forall (fun e => e.sectionNum = 1 ∨ e.sectionNum = 5) ∧
    (man_pages.map (fun e => (e.sectionNum, e.source, e.name))).Nodup := by
  decide

/-- C2 (counterexample): loading conf.py is not side-effect-free — starting
from the pristine external state, the load leaves the imported
`PygmentsBridge` with its `latex_formatter` attribute overwritten, so the
external state after the load differs from the state before it. -/
theorem loadConfModule_mutates_external_state :
    (loadConfModule initialExternalState).2 ≠ initialExternalState := by
  decide

/-- C2 (amended): loading conf.py changes exactly one piece of state outside
the module: it sets `PygmentsBridge.latex_formatter` to
`CustomLatexFormatter`, and every other external attribute is unchanged. -/
theorem loadConfModule_effect (s : ExternalState) :
    (loadConfModule s).2.latex_formatter = FormatterClass.customLatexFormatterCls ∧
    (loadConfModule s).2.html_formatter = s.html_formatter :=
  ⟨rfl, rfl⟩

/-- C2 (witness): the amended effect statement instantiated at the
pristine external state. -/
theorem loadConfModule_effect_witness :
    (loadConfModule initialExternalState).2.latex_formatter
        = FormatterClass.customLatexFormatterCls ∧
    (loadConfModule initialExternalState).2.html_formatter
        = initialExternalState.html_formatter :=
  loadConfModule_effect initialExternalState

/-- C3: emitting the configuration into the target tool's native key/value
format and reloading it reproduces the original `project`, `copyright`,
`author`, `version` and `release` strings and the original `man_pages`
table entry for entry, in the same order. -/
theorem emit_reload_round_trip :
    (reloadConf (emitConf pgcopydbConf)).map Config.project = some project ∧
    (reloadConf (emitConf pgcopydbConf)).map Config.copyright = some copyright ∧
    (reloadConf (emitConf pgcopydbConf)).map Config.author = some author ∧
    (reloadConf (emitConf pgcopydbConf)).map Config.version = some version ∧
    (reloadConf (emitConf pgcopydbConf)).map Config.release = some release ∧
    (reloadConf (emitConf pgcopydbConf)).map Config.man_pages = some man_pages := by
  decide

/-- C4: the metadata strings `project`, `author`, `version` and `release`
are all non-empty, and `version` equals `release`. -/
theorem metadata_nonempty_and_consistent :
    project ≠ "" ∧ author ≠ "" ∧ version ≠ "" ∧ release ≠ "" ∧
    version = release := by
  decide

/-- C5: for any constructor options, a `CustomLatexFormatter` instance
agrees with the base `LatexFormatter` instance built from the same options
on every attribute except `verboptions`, which it sets to the font-size
string `formatcom=\scriptsize`. -/
theorem customLatexFormatter_overrides_only_verboptions (o : LatexOptions) :
    (customLatexFormatterInit o).docclass = (latexFormatterInit o).docclass ∧
    (customLatexFormatterInit o).preamble = (latexFormatterInit o).preamble ∧
    (customLatexFormatterInit o).linenos = (latexFormatterInit o).linenos ∧
    (customLatexFormatterInit o).linenostart = (latexFormatterInit o).linenostart ∧
    (customLatexFormatterInit o).linenostep = (latexFormatterInit o).linenostep ∧
    (customLatexFormatterInit o).texcomments = (latexFormatterInit o).texcomments ∧
    (customLatexFormatterInit o).mathescape = (latexFormatterInit o).mathescape ∧
    (customLatexFormatterInit o).verboptions = "formatcom=\\scriptsize" :=
  ⟨rfl, rfl, rfl, rfl, rfl, rfl, rfl, rfl⟩

/-- The pygments option record with every option left at its default. -/
def defaultLatexOptions : LatexOptions := {}

/-- C5 (witness): the override statement instantiated at the default
constructor options. -/
theorem customLatexFormatter_overrides_only_verboptions_witness :
    (customLatexFormatterInit defaultLatexOptions).docclass
        = (latexFormatterInit defaultLatexOptions).docclass ∧
    (customLatexFormatterInit defaultLatexOptions).preamble
        = (latexFormatterInit defaultLatexOptions).preamble ∧
    (customLatexFormatterInit defaultLatexOptions).linenos
        = (latexFormatterInit defaultLatexOptions).linenos ∧
    (customLatexFormatterInit defaultLatexOptions).linenostart
        = (latexFormatterInit defaultLatexOptions).linenostart ∧
    (customLatexFormatterInit defaultLatexOptions).linenostep
        = (latexFormatterInit defaultLatexOptions).linenostep ∧
    (customLatexFormatterInit defaultLatexOptions).texcomments
        = (latexFormatterInit defaultLatexOptions).texcomments ∧
    (customLatexFormatterInit defaultLatexOptions).mathescape
        = (latexFormatterInit defaultLatexOptions).mathescape ∧
    (customLatexFormatterInit defaultLatexOptions).verboptions
        = "formatcom=\\scriptsize" :=
  customLatexFormatter_overrides_only_verboptions defaultLatexOptions

/-- C6: the `exclude_patterns` list holds no two equal entries, and every
entry is a syntactically valid glob pattern. -/
theorem exclude_patterns_nodup_and_valid :
    exclude_patterns.Nodup ∧
    exclude_patterns.Forall (fun p => globSyntaxValid p = true) := by
  decide

/-- C7: the `extensions` configuration key, the list of enabled Sphinx
extension modules, is the empty list. -/
theorem extensions_empty : extensions = ([] : List String) :=
  rfl

/-- C8: every entry of the `man_pages` table uses the command name itself
as its one-line description. -/
theorem man_pages_description_eq_name :
    man_pages.Forall (fun e => e.description = e.name) := by
  decide

/-- C9: the module-level author string is `Dimitri Fontaine`, and every
entry of the `man_pages` table has exactly `[author]` as its author
list. -/
theorem man_pages_authors_eq_author :
    author = "Dimitri Fontaine" ∧
    man_pages.Forall (fun e => e.authors = [author]) := by
  decide

/-- C10: the source document `ref/pgcopydb_clone` appears in exactly two
entries of `man_pages`, producing the pages `pgcopydb clone` and
`pgcopydb fork` in that order, and every other source document appears in
exactly one entry. -/
theorem man_pages_clone_source_doubled :
    (man_pages.filter (fun e => e.source == "ref/pgcopydb_clone")).map ManPage.name
        = ["pgcopydb clone", "pgcopydb fork"] ∧
    (man_pages.map ManPage.source).Forall
      (fun s => s = "ref/pgcopydb_clone" ∨
        (man_pages.map ManPage.source).count s = 1) := by
  decide

end PgcopydbDocsConf
